import Mathlib

/-!
Verification of the shader-resource lifecycle of a GLFW/OpenGL convenience
layer (files src/glfw/shader.hpp, src/glfw/time.hpp, src/glfw/glwindow.hpp).

The C++ code is shallowly embedded: machine pointers become optional
addresses into an explicit heap, the filesystem becomes an explicit map
from path strings to file bytes, OpenGL driver calls become explicit
state passing over a driver-state record that also keeps a call trace,
and the detached background loading thread becomes an explicit
interleaving step relation.
-/

/-- The NUL character, used by shader.hpp as the stream delimiter in
std::istream::get calls. -/
def nulChar : Char := Char.ofNat 0

/-- The states a shader can be in: enum class shader_state, shader.hpp
lines 174-188.  The C++ code stores the state as a uint8_t obtained by
static_cast from these enumerators (values 0..5, all representable in
uint8_t, so the cast is value preserving and we model the field by the
enumeration itself). -/
inductive shader_state where
  | EMPTY
  | FOUND_PATH
  | CONTENT
  | COMPILED
  | LINKED
  | DESTROYED
  deriving DecidableEq, Repr

/-- struct shader_paths, shader.hpp lines 17-21: two const char* pointers.
A pointer is modeled as an optional address (none is nullptr); the
pointed-to path string lives in the heap of a Disk. -/
structure shader_paths where
  vertex_shader : Option Nat := none
  fragment_shader : Option Nat := none
  deriving DecidableEq, Repr

/-- null_shader_path, shader.hpp line 30: a value-initialized shader_paths,
both pointers nullptr. -/
def null_shader_path : shader_paths := {}

/-- operator==(shader_paths, shader_paths), shader.hpp lines 34-37:
compares the two stored pointers (addresses), not the pointed-to text. -/
def pathsEq (left right : shader_paths) : Bool :=
  left.vertex_shader == right.vertex_shader &&
    left.fragment_shader == right.fragment_shader

/-- struct shader_contents, shader.hpp lines 23-27: two char* buffers,
nullptr until loaded.  A buffer is modeled by its byte content; none is
nullptr. -/
structure shader_contents where
  vertex_shader_content : Option (List Char) := none
  fragment_shader_content : Option (List Char) := none
  deriving DecidableEq, Repr

/-- The memory and filesystem environment of a run: heap maps a pointer
address to the C string stored there (a path name), and files maps a path
name to the bytes of that file, none when the file does not exist (so that
std::filesystem::file_size throws). -/
structure Disk where
  heap : Nat → List Char
  files : List Char → Option (List Char)

/-- Dereference a path pointer and read the named file: none when the
pointer is nullptr or the file is missing. -/
def readPtr (d : Disk) (p : Option Nat) : Option (List Char) :=
  match p with
  | none => none
  | some a => d.files (d.heap a)

/-- The path string a pointer points at, if any. -/
def pathOf (d : Disk) (p : Option Nat) : Option (List Char) :=
  p.map d.heap

/-- The exception escaping __loader_func: std::filesystem::file_size
throws a filesystem_error naming the offending path when the file does
not exist. -/
inductive LoadError where
  | fileError (path : Option (List Char))
  deriving DecidableEq, Repr

/-- Semantics of file.get(buf, count, nul) with count equal to the file
size (shader.hpp lines 56 and 61): std::istream::get stores characters
until count-1 characters are stored, the delimiter is next, or the file
ends.  So at most size-1 characters are stored, and a NUL byte stops the
read early. -/
def fileGet (bytes : List Char) : List Char :=
  (bytes.takeWhile (fun c => c != nulChar)).take (bytes.length - 1)

/-- shader_program::__loader_func, shader.hpp lines 51-62.  For each of
the two files in order: open the stream, query file_size (throws when the
file is missing, aborting the whole call at that point), allocate the
buffer and read with get.  The vertex buffer reference is assigned before
the fragment file is touched, so a fragment-side failure leaves the
freshly written vertex buffer behind.  Arguments vsc and fsc are the
buffers the caller passed by reference (their values on entry). -/
def loader_func (d : Disk) (vpth fpth : Option Nat)
    (vsc fsc : Option (List Char)) :
    (Option (List Char) × Option (List Char)) × Option LoadError :=
  match readPtr d vpth with
  | none => ((vsc, fsc), some (LoadError.fileError (pathOf d vpth)))
  | some vbytes =>
    match readPtr d fpth with
    | none =>
      ((some (fileGet vbytes), fsc), some (LoadError.fileError (pathOf d fpth)))
    | some fbytes =>
      ((some (fileGet vbytes), some (fileGet fbytes)), none)

/-- The OpenGL driver calls made by shader.hpp, kept as a trace. -/
inductive GLCall where
  | createShader (kind : Nat)
  | shaderSource (id : Nat)
  | compileShader (id : Nat)
  | createProgram
  | attachShader (program : Nat) (sh : Nat)
  | linkProgram (program : Nat)
  | deleteShader (id : Nat)
  | deleteProgram (id : Nat)
  deriving DecidableEq, Repr

/-- GL_VERTEX_SHADER. -/
def GL_VERTEX_SHADER : Nat := 35633
/-- GL_FRAGMENT_SHADER. -/
def GL_FRAGMENT_SHADER : Nat := 35632

/-- The driver-side state: a counter from which fresh nonzero object
names are allocated, the source attached to each shader object, the
per-object compile status queryable through GL_COMPILE_STATUS, the
driver's verdict on a given source (arbitrary, so theorems quantify over
both compile success and compile failure), and the trace of calls made. -/
structure GLState where
  nextId : Nat
  compileResult : Option (List Char) → Bool
  src : Nat → Option (List Char)
  status : Nat → Bool
  trace : List GLCall

/-- A driver state as at context creation: names start at 1, nothing
compiled yet. -/
def initialGL : GLState :=
  { nextId := 1
    compileResult := fun _ => true
    src := fun _ => none
    status := fun _ => false
    trace := [] }

/-- glCreateShader: returns a fresh name. -/
def glCreateShader (kind : Nat) (g : GLState) : Nat × GLState :=
  (g.nextId,
    { g with nextId := g.nextId + 1, trace := g.trace ++ [GLCall.createShader kind] })

/-- glShaderSource: attaches a source string to a shader object. -/
def glShaderSource (id : Nat) (content : Option (List Char)) (g : GLState) : GLState :=
  { g with
    src := fun i => if i = id then content else g.src i
    trace := g.trace ++ [GLCall.shaderSource id] }

/-- glCompileShader: records the driver's verdict on the attached source
as the object's GL_COMPILE_STATUS; never throws, whatever the verdict. -/
def glCompileShader (id : Nat) (g : GLState) : GLState :=
  { g with
    status := fun i => if i = id then g.compileResult (g.src id) else g.status i
    trace := g.trace ++ [GLCall.compileShader id] }

/-- glCreateProgram: returns a fresh name. -/
def glCreateProgram (g : GLState) : Nat × GLState :=
  (g.nextId,
    { g with nextId := g.nextId + 1, trace := g.trace ++ [GLCall.createProgram] })

/-- glAttachShader. -/
def glAttachShader (program : Nat) (sh : Nat) (g : GLState) : GLState :=
  { g with trace := g.trace ++ [GLCall.attachShader program sh] }

/-- glLinkProgram. -/
def glLinkProgram (program : Nat) (g : GLState) : GLState :=
  { g with trace := g.trace ++ [GLCall.linkProgram program] }

/-- glDeleteShader. -/
def glDeleteShader (id : Nat) (g : GLState) : GLState :=
  { g with trace := g.trace ++ [GLCall.deleteShader id] }

/-- glDeleteProgram. -/
def glDeleteProgram (id : Nat) (g : GLState) : GLState :=
  { g with trace := g.trace ++ [GLCall.deleteProgram id] }

/-- class shader_program, shader.hpp lines 40-205: paths, contents, the
uint8_t state field (initialized to EMPTY), the two per-stage shader
names and the program name shader_id (initialized to 0; the per-stage
names are uninitialized in C++ and modeled with an arbitrary default,
no theorem relies on their initial values). -/
structure shader_program where
  paths : shader_paths := {}
  contents : shader_contents := {}
  _shader_state : shader_state := shader_state.EMPTY
  vertex_shader_id : Nat := 0
  fragment_shader_id : Nat := 0
  shader_id : Nat := 0
  deriving DecidableEq, Repr

/-- shader_program::set_path, shader.hpp lines 69-73: copies the paths
and sets the state to FOUND_PATH.  No precondition is checked. -/
def shader_program.set_path (s : shader_program) (p : shader_paths) : shader_program :=
  { s with paths := p, _shader_state := shader_state.FOUND_PATH }

/-- shader_program::load_file<false>, shader.hpp lines 75-100 (the
synchronous branch): calls __loader_func on the stored path pointers with
the content buffers passed by reference; an exception from __loader_func
propagates to the caller with whatever buffer writes already happened
kept.  The state field is not touched by load_file. -/
def shader_program.load_file (d : Disk) (s : shader_program) :
    shader_program × Option LoadError :=
  let r := loader_func d s.paths.vertex_shader s.paths.fragment_shader
      s.contents.vertex_shader_content s.contents.fragment_shader_content
  ({ s with contents :=
      { vertex_shader_content := r.1.1, fragment_shader_content := r.1.2 } },
    r.2)

/-- shader_program::set_content, shader.hpp lines 105-111: stores the two
buffers and sets the state to CONTENT.  No precondition is checked. -/
def shader_program.set_content (s : shader_program)
    (vertex_shader_content fragment_shader_content : Option (List Char)) :
    shader_program :=
  { s with
    contents :=
      { vertex_shader_content := vertex_shader_content
        fragment_shader_content := fragment_shader_content }
    _shader_state := shader_state.CONTENT }

/-- shader_program::compile_shader, shader.hpp lines 125-136: creates the
two stage objects, attaches the stored contents, calls glCompileShader on
each, and sets the state to COMPILED unconditionally - the driver's
compile verdict is not consulted. -/
def shader_program.compile_shader (s : shader_program) (g : GLState) :
    shader_program × GLState :=
  let v := glCreateShader GL_VERTEX_SHADER g
  let g1 := glShaderSource v.1 s.contents.vertex_shader_content v.2
  let g2 := glCompileShader v.1 g1
  let f := glCreateShader GL_FRAGMENT_SHADER g2
  let g3 := glShaderSource f.1 s.contents.fragment_shader_content f.2
  let g4 := glCompileShader f.1 g3
  ({ s with
      vertex_shader_id := v.1
      fragment_shader_id := f.1
      _shader_state := shader_state.COMPILED },
    g4)

/-- shader_program::link_shader, shader.hpp lines 144-157: creates the
program object, attaches both stages, links, deletes the two stage
objects, and sets the state to LINKED.  No precondition is checked. -/
def shader_program.link_shader (s : shader_program) (g : GLState) :
    shader_program × GLState :=
  let p := glCreateProgram g
  let g1 := glAttachShader p.1 s.vertex_shader_id p.2
  let g2 := glAttachShader p.1 s.fragment_shader_id g1
  let g3 := glLinkProgram p.1 g2
  let g4 := glDeleteShader s.vertex_shader_id g3
  let g5 := glDeleteShader s.fragment_shader_id g4
  ({ s with shader_id := p.1, _shader_state := shader_state.LINKED }, g5)

/-- The destructor ~shader_program, shader.hpp lines 167-171: deletes the
program object and sets the state to DESTROYED.  It checks nothing, joins
nothing, and clears no buffer. -/
def shader_program.destroy (s : shader_program) (g : GLState) :
    shader_program × GLState :=
  ({ s with _shader_state := shader_state.DESTROYED },
    glDeleteProgram s.shader_id g)

/-- loader::full_load_shader, shader.hpp lines 267-275, with
async_load=false (the default, synchronous path; the detached-thread
branch is modeled by asyncStep below): if the stored paths differ from
NULL_SHADER_PATH under the pointer-comparing operator==, load the files
(an exception propagates and aborts the pipeline); then compile and link
unconditionally. -/
def loader.full_load_shader (d : Disk) (s : shader_program) (g : GLState) :
    (shader_program × GLState) × Option LoadError :=
  let r := if pathsEq s.paths null_shader_path then (s, none) else s.load_file d
  match r.2 with
  | some err => ((r.1, g), some err)
  | none =>
    let c := r.1.compile_shader g
    (c.1.link_shader c.2, none)

/-- The else-branch pipeline of full_load_shader written on its own: load
the files, and unless the load threw, compile then link. -/
def loadThenCompileLink (d : Disk) (s : shader_program) (g : GLState) :
    (shader_program × GLState) × Option LoadError :=
  let r := s.load_file d
  match r.2 with
  | some err => ((r.1, g), some err)
  | none =>
    let c := r.1.compile_shader g
    (c.1.link_shader c.2, none)

/-- compiler::compile_shader, shader.hpp lines 281-283: its whole body is
shader.link_shader(). -/
def compiler.compile_shader (s : shader_program) (g : GLState) :
    shader_program × GLState :=
  s.link_shader g

/-- compiler::log_compilation_status, shader.hpp lines 297-331: queries
GL_COMPILE_STATUS of the two stage objects and reports them (the printed
text is abstracted to the two queried booleans; the shader itself is not
modified). -/
def compiler.log_compilation_status (s : shader_program) (g : GLState) :
    Bool × Bool :=
  (g.status s.vertex_shader_id, g.status s.fragment_shader_id)

/-- Number of glCompileShader calls in a trace. -/
def countCompileCalls (t : List GLCall) : Nat :=
  (t.filter fun c =>
    match c with
    | GLCall.compileShader _ => true
    | _ => false).length

/-- Modelled from the spec: the edge set of the state machine of spec
section 4 (EMPTY to FOUND_PATH, EMPTY to CONTENT, FOUND_PATH to CONTENT,
CONTENT to COMPILED, COMPILED to LINKED, any state to DESTROYED).  This
definition follows the spec's words, for comparison with the behavior of
the code; it embeds no code. -/
def specEdge : shader_state → shader_state → Bool
  | shader_state.EMPTY, shader_state.FOUND_PATH => true
  | shader_state.EMPTY, shader_state.CONTENT => true
  | shader_state.FOUND_PATH, shader_state.CONTENT => true
  | shader_state.CONTENT, shader_state.COMPILED => true
  | shader_state.COMPILED, shader_state.LINKED => true
  | _, shader_state.DESTROYED => true
  | _, _ => false

/-- One foreground operation on a shader_program, for reachability: the
public mutating entry points of shader.hpp (synchronous load; the
detached-thread variant is treated in the AsyncWorld model). -/
inductive Op where
  | setPath (p : shader_paths)
  | setContent (v f : Option (List Char))
  | loadFile (d : Disk)
  | compile
  | link
  | destroy

/-- Run one operation on a shader and the driver state (an exception from
loadFile leaves the partially updated shader behind, as in C++). -/
def runOp (op : Op) (sg : shader_program × GLState) : shader_program × GLState :=
  match op with
  | Op.setPath p => (sg.1.set_path p, sg.2)
  | Op.setContent v f => (sg.1.set_content v f, sg.2)
  | Op.loadFile d => ((sg.1.load_file d).1, sg.2)
  | Op.compile => sg.1.compile_shader sg.2
  | Op.link => sg.1.link_shader sg.2
  | Op.destroy => sg.1.destroy sg.2

/-- Run a sequence of operations. -/
def runOps (ops : List Op) (sg : shader_program × GLState) :
    shader_program × GLState :=
  ops.foldl (fun acc op => runOp op acc) sg

/-- A shader_program is reachable when some operation sequence produces
it from a default-constructed shader_program and some driver state. -/
def Reachable (s : shader_program) : Prop :=
  ∃ (ops : List Op) (g0 : GLState), (runOps ops ({}, g0)).1 = s

/-- The invariant tying the EMPTY state to unpopulated fields: a shader
still in state EMPTY has null paths and null content buffers. -/
def stateInv (s : shader_program) : Prop :=
  s._shader_state = shader_state.EMPTY →
    s.paths = null_shader_path ∧ s.contents = ({} : shader_contents)

/-- The world of one shader with a possibly in-flight detached loading
thread (shader_program::load_file<true>, shader.hpp lines 78-89): the
shader's memory, whether the owning object has been destroyed, and the
path pointers captured by a spawned-and-detached thread that has not yet
performed its writes.  The code offers no join, no cancel and no guard,
so the thread's completion can interleave anywhere, including after the
destructor. -/
structure AsyncWorld where
  sh : shader_program
  freed : Bool
  pending : Option (Option Nat × Option Nat)
  gl : GLState

/-- The three interleaving events of the detached-thread load. -/
inductive AsyncEvent where
  | loadAsyncEv
  | destroyEv
  | finishEv

/-- Interleaving semantics.  loadAsyncEv is load_file<true>: it spawns a
detached thread capturing the stored path pointers and returns at once,
touching neither contents nor state.  destroyEv is the destructor: it
runs unconditionally - nothing in the code consults the pending thread,
and no ResourceBusyError exists anywhere in the repository.  finishEv is
the detached thread completing its reads: it writes the buffers through
the references it holds into the shader's memory whether or not that
memory has been freed. -/
def asyncStep (d : Disk) : AsyncEvent → AsyncWorld → AsyncWorld
  | AsyncEvent.loadAsyncEv, w =>
    { w with pending := some (w.sh.paths.vertex_shader, w.sh.paths.fragment_shader) }
  | AsyncEvent.destroyEv, w =>
    { w with
      sh := (w.sh.destroy w.gl).1
      gl := (w.sh.destroy w.gl).2
      freed := true }
  | AsyncEvent.finishEv, w =>
    match w.pending with
    | none => w
    | some pq =>
      let r := loader_func d pq.1 pq.2 w.sh.contents.vertex_shader_content
          w.sh.contents.fragment_shader_content
      { w with
        sh := { w.sh with contents :=
          { vertex_shader_content := r.1.1, fragment_shader_content := r.1.2 } }
        pending := none }

/-- std::chrono::nanoseconds::period::den, an integer constant. -/
def time.period_den : Int := 1000000000

/-- glfw::time::now, time.hpp lines 27-30: the clock's time_since_epoch
count (an integer tick count) divided by period::den.  Both operands are
integers, so the division is integer division; only then is the quotient
converted to long double for the return (integers of this size convert
exactly, so the long double value is modeled as a rational). -/
def time.now (ticks : Int) : ℚ :=
  ((ticks / time.period_den : Int) : ℚ)

/-- The deltaTime stored by gl_window::render, glwindow.hpp lines
136-141: now() after the renderer returns minus now() before it ran,
where the two calls saw tick counts startTicks and endTicks. -/
def gl_window.render_deltaTime (startTicks endTicks : Int) : ℚ :=
  time.now endTicks - time.now startTicks

/-- A disk with two readable shader files: address 0 points at path "v"
holding bytes a b, address 1 points at path "f" holding bytes c d. -/
def disk0 : Disk where
  heap a := if a = 0 then ['v'] else if a = 1 then ['f'] else []
  files p :=
    if p = ['v'] then some ['a', 'b']
    else if p = ['f'] then some ['c', 'd']
    else none

/-- A disk where the vertex file exists but the fragment file is missing:
address 0 points at path "v" holding bytes a b, address 1 points at path
"m" which names no file. -/
def disk1 : Disk where
  heap a := if a = 0 then ['v'] else if a = 1 then ['m'] else []
  files p := if p = ['v'] then some ['a', 'b'] else none

/-- A disk on which every address holds the same path string, so distinct
addresses point at equal text. -/
def diskDup : Disk where
  heap _ := ['p']
  files _ := none

/-- A shader whose paths point at the two files of disk0 (or at the
missing file of disk1): the state after set_path. -/
def demo_shader : shader_program :=
  shader_program.set_path {} ⟨some 0, some 1⟩

/-- A default shader after set_content: state CONTENT. -/
def c1_s1 : shader_program :=
  shader_program.set_content {} (some ['a']) (some ['b'])

/-- The shader of c1_s1 after a further set_path call: the call succeeds
and moves the state from CONTENT back to FOUND_PATH. -/
def c1_s2 : shader_program :=
  c1_s1.set_path ⟨some 0, some 1⟩

/-- A reachable shader: paths set, then a successful synchronous load. -/
def c4_s : shader_program :=
  (runOps [Op.setPath ⟨some 0, some 1⟩, Op.loadFile disk0] ({}, initialGL)).1

/-- The async world before any event: demo_shader alive, no thread. -/
def world0 : AsyncWorld :=
  { sh := demo_shader, freed := false, pending := none, gl := initialGL }

/-- world0 after load_file<true>: a detached load is in flight. -/
def world1 : AsyncWorld := asyncStep disk0 AsyncEvent.loadAsyncEv world0

/-- world1 after the destructor runs while the load is still in flight. -/
def world2 : AsyncWorld := asyncStep disk0 AsyncEvent.destroyEv world1

/-- world2 after the detached thread finally performs its writes. -/
def world3 : AsyncWorld := asyncStep disk0 AsyncEvent.finishEv world2

/-- A driver state whose compile verdict is failure for every source. -/
def failGL : GLState :=
  { nextId := 1
    compileResult := fun _ => false
    src := fun _ => none
    status := fun _ => false
    trace := [] }

/-- Helper: a successful synchronous load writes the truncated reads of
both files and reports no error. -/
theorem load_file_ok (d : Disk) (s : shader_program) (vb fb : List Char)
    (hv : readPtr d s.paths.vertex_shader = some vb)
    (hf : readPtr d s.paths.fragment_shader = some fb) :
    s.load_file d =
      ({ s with contents :=
          { vertex_shader_content := some (fileGet vb)
            fragment_shader_content := some (fileGet fb) } }, none) := by
  simp [shader_program.load_file, loader_func, hv, hf]

/-- Helper: the stream read stores at most one character fewer than the
file's size. -/
theorem fileGet_length_le (bytes : List Char) :
    (fileGet bytes).length ≤ bytes.length - 1 := by
  unfold fileGet
  rw [List.length_take]
  exact min_le_left _ _

/-- C1 counterexample: set_path invoked on a shader in state CONTENT
succeeds and moves the state to FOUND_PATH, a transition outside the
spec's edge set, instead of failing with InvalidStateError. -/
theorem C1_counterexample :
    c1_s1._shader_state = shader_state.CONTENT ∧
    c1_s2._shader_state = shader_state.FOUND_PATH ∧
    specEdge shader_state.CONTENT shader_state.FOUND_PATH = false := by
  decide

/-- C1 amended: no operation checks any precondition.  set_path,
set_content, compile_shader, link_shader and the destructor set the state
unconditionally to FOUND_PATH, CONTENT, COMPILED, LINKED and DESTROYED
respectively from any prior state, and load_file never changes the state;
no InvalidStateError exists in the code. -/
theorem C1_no_state_checks (s : shader_program) (p : shader_paths)
    (v f : Option (List Char)) (d : Disk) (g : GLState) :
    (s.set_path p)._shader_state = shader_state.FOUND_PATH ∧
    (s.set_content v f)._shader_state = shader_state.CONTENT ∧
    ((s.compile_shader g).1)._shader_state = shader_state.COMPILED ∧
    ((s.link_shader g).1)._shader_state = shader_state.LINKED ∧
    ((s.destroy g).1)._shader_state = shader_state.DESTROYED ∧
    ((s.load_file d).1)._shader_state = s._shader_state :=
  ⟨rfl, rfl, rfl, rfl, rfl, rfl⟩

/-- C1 witness: the amended theorem applied at a concrete shader. -/
theorem C1_witness :
    (c1_s1.set_path ⟨some 0, some 1⟩)._shader_state = shader_state.FOUND_PATH :=
  (C1_no_state_checks c1_s1 ⟨some 0, some 1⟩ none none disk0 initialGL).1

/-- C2 counterexample: with the vertex file holding the two bytes a b,
a synchronous load succeeds but stores only the single byte a (the
istream::get call reads at most size-1 characters), and the state stays
FOUND_PATH rather than becoming CONTENT. -/
theorem C2_counterexample :
    disk0.files (disk0.heap 0) = some ['a', 'b'] ∧
    (demo_shader.load_file disk0).2 = none ∧
    (demo_shader.load_file disk0).1.contents.vertex_shader_content = some ['a'] ∧
    (demo_shader.load_file disk0).1._shader_state = shader_state.FOUND_PATH ∧
    (demo_shader.load_file disk0).1._shader_state ≠ shader_state.CONTENT := by
  decide

/-- C2 amended: for a resource in state FOUND_PATH whose source files are
all readable, a synchronous load reads from each named file at most
size-1 characters (stopping early at any NUL byte) into content in the
given order and reports no error, but leaves the state at FOUND_PATH:
load_file never sets CONTENT. -/
theorem C2_load_sync_truncates (d : Disk) (s : shader_program) (vb fb : List Char)
    (hv : readPtr d s.paths.vertex_shader = some vb)
    (hf : readPtr d s.paths.fragment_shader = some fb) :
    (s.load_file d).2 = none ∧
    (s.load_file d).1.contents.vertex_shader_content = some (fileGet vb) ∧
    (s.load_file d).1.contents.fragment_shader_content = some (fileGet fb) ∧
    (fileGet vb).length ≤ vb.length - 1 ∧
    (fileGet fb).length ≤ fb.length - 1 ∧
    (s.load_file d).1._shader_state = s._shader_state := by
  rw [load_file_ok d s vb fb hv hf]
  exact ⟨rfl, rfl, rfl, fileGet_length_le vb, fileGet_length_le fb, rfl⟩

/-- C2 witness: the amended theorem applied on disk0. -/
theorem C2_witness :
    readPtr disk0 demo_shader.paths.vertex_shader = some ['a', 'b'] ∧
    readPtr disk0 demo_shader.paths.fragment_shader = some ['c', 'd'] ∧
    (demo_shader.load_file disk0).2 = none ∧
    (demo_shader.load_file disk0).1._shader_state = demo_shader._shader_state := by
  refine ⟨by decide, by decide, ?_, ?_⟩
  · exact (C2_load_sync_truncates disk0 demo_shader ['a', 'b'] ['c', 'd']
      (by decide) (by decide)).1
  · exact (C2_load_sync_truncates disk0 demo_shader ['a', 'b'] ['c', 'd']
      (by decide) (by decide)).2.2.2.2.2

/-- C3 counterexample: vertex file readable, fragment file missing.  The
load fails and leaves the state FOUND_PATH, but the vertex content read
before the failure is retained (content was empty before the call), so
the all-or-nothing part of the claim is false. -/
theorem C3_counterexample :
    demo_shader.contents.vertex_shader_content = none ∧
    ((demo_shader.load_file disk1).2).isSome = true ∧
    (demo_shader.load_file disk1).1._shader_state = shader_state.FOUND_PATH ∧
    (demo_shader.load_file disk1).1.contents.vertex_shader_content = some ['a'] := by
  decide

/-- C3 amended: when the fragment file is unreadable a synchronous load
fails with a filesystem error naming that path and leaves the state
unchanged (still FOUND_PATH), but the vertex content already read is
retained and only the fragment buffer keeps its prior value: the load is
not all-or-nothing. -/
theorem C3_load_failure_not_atomic (d : Disk) (s : shader_program) (vb : List Char)
    (hv : readPtr d s.paths.vertex_shader = some vb)
    (hf : readPtr d s.paths.fragment_shader = none) :
    (s.load_file d).2 = some (LoadError.fileError (pathOf d s.paths.fragment_shader)) ∧
    (s.load_file d).1._shader_state = s._shader_state ∧
    (s.load_file d).1.contents.vertex_shader_content = some (fileGet vb) ∧
    (s.load_file d).1.contents.fragment_shader_content =
      s.contents.fragment_shader_content := by
  simp [shader_program.load_file, loader_func, hv, hf]

/-- C3 witness: the amended theorem applied on disk1. -/
theorem C3_witness :
    readPtr disk1 demo_shader.paths.vertex_shader = some ['a', 'b'] ∧
    readPtr disk1 demo_shader.paths.fragment_shader = none ∧
    (demo_shader.load_file disk1).1.contents.vertex_shader_content =
      some (fileGet ['a', 'b']) := by
  refine ⟨by decide, by decide, ?_⟩
  exact (C3_load_failure_not_atomic disk1 demo_shader ['a', 'b']
    (by decide) (by decide)).2.2.1

/-- Helper: every operation preserves the EMPTY-state invariant. -/
theorem runOp_preserves_stateInv (op : Op) (sg : shader_program × GLState)
    (h : stateInv sg.1) : stateInv (runOp op sg).1 := by
  cases op with
  | setPath p =>
    intro hst
    simp [runOp, shader_program.set_path] at hst
  | setContent v f =>
    intro hst
    simp [runOp, shader_program.set_content] at hst
  | loadFile d =>
    intro hst
    obtain ⟨hp, hc⟩ := h hst
    have hv : sg.1.paths.vertex_shader = none := by rw [hp]; rfl
    refine ⟨hp, ?_⟩
    simp [runOp, shader_program.load_file, loader_func, readPtr, hv, hc]
  | compile =>
    intro hst
    simp [runOp, shader_program.compile_shader] at hst
  | link =>
    intro hst
    simp [runOp, shader_program.link_shader] at hst
  | destroy =>
    intro hst
    simp [runOp, shader_program.destroy] at hst

/-- Helper: the EMPTY-state invariant holds along every run. -/
theorem runOps_preserves_stateInv (ops : List Op) (sg : shader_program × GLState)
    (h : stateInv sg.1) : stateInv (runOps ops sg).1 := by
  induction ops generalizing sg with
  | nil => exact h
  | cons op rest ih => exact ih (runOp op sg) (runOp_preserves_stateInv op sg h)

/-- C4 counterexample: a reachable resource (paths set, then a successful
synchronous load) whose content is populated while its state, FOUND_PATH,
is outside the claimed set CONTENT, COMPILED, LINKED. -/
theorem C4_counterexample :
    Reachable c4_s ∧
    c4_s.contents.vertex_shader_content = some ['a'] ∧
    c4_s._shader_state = shader_state.FOUND_PATH ∧
    c4_s._shader_state ∉ [shader_state.CONTENT, shader_state.COMPILED,
      shader_state.LINKED] :=
  ⟨⟨[Op.setPath ⟨some 0, some 1⟩, Op.loadFile disk0], initialGL, rfl⟩,
    by decide, by decide, by decide⟩

/-- C4 amended: for every reachable resource, content is non-empty only
when the state is one of FOUND_PATH, CONTENT, COMPILED, LINKED or
DESTROYED - that is, only the EMPTY state guarantees empty content.
load_file populates content while leaving the state FOUND_PATH, and the
destructor keeps content populated in state DESTROYED. -/
theorem C4_content_state_inv (s : shader_program) (h : Reachable s)
    (hc : s.contents ≠ ({} : shader_contents)) :
    s._shader_state ∈ [shader_state.FOUND_PATH, shader_state.CONTENT,
      shader_state.COMPILED, shader_state.LINKED, shader_state.DESTROYED] := by
  obtain ⟨ops, g0, rfl⟩ := h
  have hinv := runOps_preserves_stateInv ops ({}, g0) (fun _ => ⟨rfl, rfl⟩)
  cases hst : (runOps ops ({}, g0)).1._shader_state with
  | EMPTY => exact absurd (hinv hst).2 hc
  | FOUND_PATH => decide
  | CONTENT => decide
  | COMPILED => decide
  | LINKED => decide
  | DESTROYED => decide

/-- C4 witness: the amended theorem applied at a reachable shader with
inline content set. -/
theorem C4_witness :
    c1_s1._shader_state ∈ [shader_state.FOUND_PATH, shader_state.CONTENT,
      shader_state.COMPILED, shader_state.LINKED, shader_state.DESTROYED] :=
  C4_content_state_inv c1_s1
    ⟨[Op.setContent (some ['a']) (some ['b'])], initialGL, rfl⟩ (by decide)

/-- Helper: a shader whose vertex path pointer dereferences to a file is
not equal to null_shader_path under the pointer comparison. -/
theorem pathsEq_null_false_of_read (d : Disk) (s : shader_program) (vb : List Char)
    (hv : readPtr d s.paths.vertex_shader = some vb) :
    pathsEq s.paths null_shader_path = false := by
  cases hp : s.paths.vertex_shader with
  | none => simp [readPtr, hp] at hv
  | some a => simp [pathsEq, null_shader_path, hp]

/-- C5: for every resource whose paths are set and whose source files are
readable, full_load_shader with synchronous loading loads, compiles and
links, ending in state LINKED with a nonzero program handle; and when the
paths equal the null path it skips the load and goes straight to compile
then link. -/
theorem C5_full_load_sync (d : Disk) (s : shader_program) (g : GLState)
    (vb fb : List Char)
    (hv : readPtr d s.paths.vertex_shader = some vb)
    (hf : readPtr d s.paths.fragment_shader = some fb) :
    ((loader.full_load_shader d s g).2 = none ∧
      ((loader.full_load_shader d s g).1.1)._shader_state = shader_state.LINKED ∧
      ((loader.full_load_shader d s g).1.1).shader_id ≠ 0) ∧
    (∀ s2 : shader_program, pathsEq s2.paths null_shader_path = true →
      loader.full_load_shader d s2 g =
        ((s2.compile_shader g).1.link_shader (s2.compile_shader g).2, none)) := by
  constructor
  · have hnz := pathsEq_null_false_of_read d s vb hv
    have hload := load_file_ok d s vb fb hv hf
    refine ⟨?_, ?_, ?_⟩ <;>
      simp [loader.full_load_shader, hnz, hload, shader_program.compile_shader,
        shader_program.link_shader, glCreateShader, glShaderSource,
        glCompileShader, glCreateProgram]
  · intro s2 h2
    simp [loader.full_load_shader, h2]

/-- C5 witness: the theorem applied on disk0 with both files readable,
and its skip branch applied at a default shader with null paths. -/
theorem C5_witness :
    readPtr disk0 demo_shader.paths.vertex_shader = some ['a', 'b'] ∧
    readPtr disk0 demo_shader.paths.fragment_shader = some ['c', 'd'] ∧
    ((loader.full_load_shader disk0 demo_shader initialGL).2 = none ∧
      ((loader.full_load_shader disk0 demo_shader initialGL).1.1)._shader_state =
        shader_state.LINKED ∧
      ((loader.full_load_shader disk0 demo_shader initialGL).1.1).shader_id ≠ 0) ∧
    pathsEq ({} : shader_program).paths null_shader_path = true ∧
    loader.full_load_shader disk0 ({} : shader_program) initialGL =
      ((({} : shader_program).compile_shader initialGL).1.link_shader
        (({} : shader_program).compile_shader initialGL).2, none) := by
  refine ⟨by decide, by decide, ?_, by decide, ?_⟩
  · exact (C5_full_load_sync disk0 demo_shader initialGL ['a', 'b'] ['c', 'd']
      (by decide) (by decide)).1
  · exact (C5_full_load_sync disk0 demo_shader initialGL ['a', 'b'] ['c', 'd']
      (by decide) (by decide)).2 {} (by decide)

/-- C6: compile_shader moves the state to COMPILED unconditionally, for
every driver state - in particular also when the driver's compile verdict
on either stage is failure - and the per-stage verdicts are only
observable afterwards through the separate log query, which reports the
driver's verdict on each stage's stored content. -/
theorem C6_compile_unconditional (s : shader_program) (g : GLState) :
    ((s.compile_shader g).1)._shader_state = shader_state.COMPILED ∧
    compiler.log_compilation_status (s.compile_shader g).1 (s.compile_shader g).2 =
      (g.compileResult s.contents.vertex_shader_content,
        g.compileResult s.contents.fragment_shader_content) := by
  refine ⟨rfl, ?_⟩
  have h1 : g.nextId ≠ g.nextId + 1 := by omega
  simp [compiler.log_compilation_status, shader_program.compile_shader,
    glCreateShader, glShaderSource, glCompileShader, h1]

/-- C7 counterexample: a concrete interleaving.  After load_file<true>
spawns a detached load, the destructor runs without any error while the
load is still in flight (nothing like ResourceBusyError exists in the
code), and the load then completes, writing the vertex buffer into the
already-destroyed resource. -/
theorem C7_counterexample :
    world1.pending ≠ none ∧
    world2.freed = true ∧
    world2.sh._shader_state = shader_state.DESTROYED ∧
    world2.pending ≠ none ∧
    world2.sh.contents.vertex_shader_content = none ∧
    world3.freed = true ∧
    world3.sh.contents.vertex_shader_content = some ['a'] := by
  decide

/-- C7 amended: the destructor never fails and consults nothing: run on a
resource with an in-flight detached load it still deletes the program and
sets DESTROYED, leaving the load in flight (the code has no
ResourceBusyError, no join and no cancel), and when the load later
completes it writes its buffers into the destroyed resource. -/
theorem C7_destroy_ignores_pending (d : Disk) (w : AsyncWorld)
    (_hp : w.pending ≠ none) :
    ((asyncStep d AsyncEvent.destroyEv w).freed = true ∧
      (asyncStep d AsyncEvent.destroyEv w).sh._shader_state = shader_state.DESTROYED ∧
      (asyncStep d AsyncEvent.destroyEv w).pending = w.pending) ∧
    (∀ vp fp vb fb,
      (asyncStep d AsyncEvent.destroyEv w).pending = some (vp, fp) →
      readPtr d vp = some vb → readPtr d fp = some fb →
      (asyncStep d AsyncEvent.finishEv (asyncStep d AsyncEvent.destroyEv w)).freed
          = true ∧
      (asyncStep d AsyncEvent.finishEv
          (asyncStep d AsyncEvent.destroyEv w)).sh.contents.vertex_shader_content
        = some (fileGet vb)) := by
  refine ⟨⟨rfl, rfl, rfl⟩, ?_⟩
  intro vp fp vb fb hpend hv hf
  simp only [asyncStep] at hpend
  constructor
  · simp [asyncStep, hpend]
  · simp [asyncStep, hpend, loader_func, hv, hf]

/-- C7 witness: the amended theorem applied at the concrete world with an
in-flight load, including the post-destruction completion of the load. -/
theorem C7_witness :
    world1.pending ≠ none ∧
    (asyncStep disk0 AsyncEvent.destroyEv world1).freed = true ∧
    (asyncStep disk0 AsyncEvent.destroyEv world1).sh._shader_state =
      shader_state.DESTROYED ∧
    (asyncStep disk0 AsyncEvent.finishEv
        (asyncStep disk0 AsyncEvent.destroyEv world1)).sh.contents.vertex_shader_content
      = some (fileGet ['a', 'b']) := by
  refine ⟨by decide, ?_, ?_, ?_⟩
  · exact (C7_destroy_ignores_pending disk0 world1 (by decide)).1.1
  · exact (C7_destroy_ignores_pending disk0 world1 (by decide)).1.2.1
  · exact ((C7_destroy_ignores_pending disk0 world1 (by decide)).2 (some 0) (some 1)
      ['a', 'b'] ['c', 'd'] (by decide) (by decide) (by decide)).2

/-- C8: compiler::compile_shader is exactly link_shader: the two agree on
every input, the result state is LINKED (never COMPILED), and the call
adds no glCompileShader call to the driver trace. -/
theorem C8_compiler_compile_is_link (s : shader_program) (g : GLState) :
    compiler.compile_shader s g = s.link_shader g ∧
    ((compiler.compile_shader s g).1)._shader_state = shader_state.LINKED ∧
    ((compiler.compile_shader s g).1)._shader_state ≠ shader_state.COMPILED ∧
    countCompileCalls ((compiler.compile_shader s g).2).trace =
      countCompileCalls g.trace := by
  refine ⟨rfl, rfl, fun h => shader_state.noConfusion h, ?_⟩
  simp [compiler.compile_shader, shader_program.link_shader, glCreateProgram,
    glAttachShader, glLinkProgram, glDeleteShader, countCompileCalls,
    List.filter_append]

/-- C9: equality of shader_paths is pointer-identity on both stored
pointers; two shader_paths whose pointed-to strings are equal text at
different addresses compare unequal; comparison against the null path
holds exactly when both pointers are null; and whenever the paths are not
both null, full_load_shader runs the file-loading pipeline rather than
skipping it. -/
theorem C9_paths_pointer_semantics :
    (∀ l r : shader_paths, pathsEq l r = true ↔
      l.vertex_shader = r.vertex_shader ∧ l.fragment_shader = r.fragment_shader) ∧
    (diskDup.heap 0 = diskDup.heap 1 ∧
      pathsEq ⟨some 0, some 0⟩ ⟨some 1, some 1⟩ = false) ∧
    (∀ p : shader_paths, pathsEq p null_shader_path = true ↔
      p.vertex_shader = none ∧ p.fragment_shader = none) ∧
    (∀ (d : Disk) (s : shader_program) (g : GLState),
      pathsEq s.paths null_shader_path = false →
      loader.full_load_shader d s g = loadThenCompileLink d s g) := by
  refine ⟨?_, ⟨rfl, by decide⟩, ?_, ?_⟩
  · intro l r
    simp [pathsEq]
  · intro p
    simp [pathsEq, null_shader_path]
  · intro d s g h
    simp [loader.full_load_shader, loadThenCompileLink, h]

/-- C9 witness: the non-null-path part of the theorem applied at a
concrete shader with paths set. -/
theorem C9_witness :
    pathsEq demo_shader.paths null_shader_path = false ∧
    loader.full_load_shader disk0 demo_shader initialGL =
      loadThenCompileLink disk0 demo_shader initialGL :=
  ⟨by decide,
    C9_paths_pointer_semantics.2.2.2 disk0 demo_shader initialGL (by decide)⟩

/-- C10: time.now divides the integer tick count by the integer
period::den, so the result is always a whole number of seconds, and the
deltaTime stored by gl_window::render, a difference of two such values,
is always an integer number of seconds; in particular one and a half
billion nanoseconds of elapsed time yield a deltaTime of exactly 1. -/
theorem C10_now_integer_seconds :
    (∀ ticks : Int, ∃ n : ℤ, time.now ticks = (n : ℚ)) ∧
    (∀ startTicks endTicks : Int, ∃ n : ℤ,
      gl_window.render_deltaTime startTicks endTicks = (n : ℚ)) ∧
    time.now 1 = 0 ∧
    time.now 1999999999 = 1 ∧
    gl_window.render_deltaTime 0 1500000000 = 1 := by
  refine ⟨fun ticks => ⟨ticks / time.period_den, rfl⟩,
    fun t1 t2 => ⟨t2 / time.period_den - t1 / time.period_den, ?_⟩, ?_, ?_, ?_⟩
  · unfold gl_window.render_deltaTime time.now
    push_cast
    ring
  · norm_num [time.now, time.period_den]
  · norm_num [time.now, time.period_den]
  · norm_num [gl_window.render_deltaTime, time.now, time.period_den]

/-- C6 witness: the theorem applied at a driver that rejects every
source: the state still becomes COMPILED and the log afterwards reports
both per-stage failures. -/
theorem C6_witness :
    ((c1_s1.compile_shader failGL).1)._shader_state = shader_state.COMPILED ∧
    compiler.log_compilation_status (c1_s1.compile_shader failGL).1
      (c1_s1.compile_shader failGL).2 = (false, false) :=
  C6_compile_unconditional c1_s1 failGL

/-- C8 witness: the theorem applied at a concrete shader and driver. -/
theorem C8_witness :
    compiler.compile_shader c1_s1 initialGL = c1_s1.link_shader initialGL ∧
    ((compiler.compile_shader c1_s1 initialGL).1)._shader_state =
      shader_state.LINKED :=
  ⟨(C8_compiler_compile_is_link c1_s1 initialGL).1,
    (C8_compiler_compile_is_link c1_s1 initialGL).2.1⟩

/-- C10 witness: the theorem's concrete instances. -/
theorem C10_witness :
    time.now 1 = 0 ∧ gl_window.render_deltaTime 0 1500000000 = 1 :=
  ⟨C10_now_integer_seconds.2.2.1, C10_now_integer_seconds.2.2.2.2⟩
